import Mathlib

/-!
Shallow embedding of `src/gpu/graphite/task/UploadTask.cpp` (Skia Graphite upload
staging/scheduling logic) and proofs of the spec's claims about it.

Machine integers: C++ `size_t` values are modelled as `Nat`; C++ `int32_t`
coordinates are modelled as `Int` (the claims only evaluate the code at small
non-negative magnitudes, far from any wraparound).  External collaborators
(SkAlign.h, SkCompressedDataUtils, Caps, the staging-buffer manager, the
conditional-upload context) are modelled as explicit parameters or, where the
spec fixes their meaning, as definitions marked `Modelled from the spec`.
Side effects (writer calls, emitted copy commands, conditional-context
notifications) are made explicit in the return values.
-/

namespace Skia

/-- Integer dimensions, `SkISize` (int32 width/height). -/
structure SkISize where
  width : Int
  height : Int
deriving Repr, DecidableEq, BEq

/-- Integer rectangle, `SkIRect` (left, top, right, bottom). -/
structure SkIRect where
  left : Int
  top : Int
  right : Int
  bottom : Int
deriving Repr, DecidableEq, BEq

def SkIRect.width (r : SkIRect) : Int := r.right - r.left

def SkIRect.height (r : SkIRect) : Int := r.bottom - r.top

def SkIRect.size (r : SkIRect) : SkISize := ⟨r.width, r.height⟩

/-- `SkIRect::isEmpty`: a rect is empty unless left < right and top < bottom. -/
def SkIRect.isEmpty (r : SkIRect) : Bool := r.right ≤ r.left || r.bottom ≤ r.top

/-- `SkIRect::MakeSize`: the rect `[0, 0, w, h]`. -/
def SkIRect.MakeSize (s : SkISize) : SkIRect := ⟨0, 0, s.width, s.height⟩

/-- `SkIRect::offset(dx, dy)`: translate all four edges. -/
def SkIRect.offsetBy (r : SkIRect) (dx dy : Int) : SkIRect :=
  ⟨r.left + dx, r.top + dy, r.right + dx, r.bottom + dy⟩

/-- `SkIRect::intersect`: the intersection when it is non-empty, `none` otherwise. -/
def SkIRect.intersect (a b : SkIRect) : Option SkIRect :=
  let L := max a.left b.left
  let T := max a.top b.top
  let R := min a.right b.right
  let B := min a.bottom b.bottom
  if L < R ∧ T < B then some ⟨L, T, R, B⟩ else none

/-- Modelled from the spec: `align(x, a)` (`SkAlignTo` from
include/private/base/SkAlign.h, not under src/) rounds `x` up to the nearest
multiple of the alignment `a`. -/
def SkAlignTo (x a : Nat) : Nat := ((x + a - 1) / a) * a

/-- Modelled from the spec: `SkAlignTo` applied to int32 copy extents
(round up to a multiple of `a`, for positive `x` and `a`). -/
def SkAlignToInt (x a : Int) : Int := ((x + a - 1) / a) * a

/-- The texture compression modes reachable from this code
(`SkTextureCompressionType`). -/
inductive SkTextureCompressionType where
  | kNone
  | kETC2_RGB8_UNORM
  | kBC1_RGB8_UNORM
  | kBC1_RGBA8_UNORM
deriving Repr, DecidableEq, BEq

/-- Modelled from the spec: `CompressedDimensionsInBlocks`
(SkCompressedDataUtils, not under src/) converts pixel dimensions to
block-grid dimensions per compression mode; the `kNone` mode is per-pixel
(identity), and every supported block-compressed mode uses 4×4 blocks, so the
dimensions are divided by 4 rounding up. -/
def CompressedDimensionsInBlocks (c : SkTextureCompressionType) (d : SkISize) : SkISize :=
  match c with
  | .kNone => d
  | _ => ⟨(d.width + 3) / 4, (d.height + 3) / 4⟩

/-- Modelled from the spec: `SkCompressedBlockSize` (SkCompressedDataUtils,
not under src/): bytes per encoded block; every supported block-compressed
mode stores 8-byte blocks. -/
def SkCompressedBlockSize (c : SkTextureCompressionType) : Nat :=
  match c with
  | .kNone => 0
  | _ => 8

/-- Modelled from the spec: `CompressedRowBytes` (SkCompressedDataUtils, not
under src/): bytes in one block-row of a compressed level of pixel width `w`. -/
def CompressedRowBytes (c : SkTextureCompressionType) (w : Int) : Nat :=
  match c with
  | .kNone => 0
  | _ => ((w + 3) / 4).toNat * 8

/-- Modelled from the spec: `CompressedDimensions` (SkCompressedDataUtils, not
under src/): pixel dimensions rounded up to whole blocks. -/
def CompressedDimensions (c : SkTextureCompressionType) (d : SkISize) : SkISize :=
  match c with
  | .kNone => d
  | _ => ⟨((d.width + 3) / 4) * 4, ((d.height + 3) / 4) * 4⟩

/-- The subset of `SkColorType` values this development needs, plus `kUnknown`. -/
inductive SkColorType where
  | kUnknown
  | kAlpha_8
  | kRGBA_8888
  | kRGB_888x
  | kBGRA_8888
  | kRGBA_F16
deriving Repr, DecidableEq, BEq

/-- Modelled from the spec: `SkColorTypeBytesPerPixel` (include/core, not
under src/): per-pixel byte size of a color type. -/
def SkColorTypeBytesPerPixel (ct : SkColorType) : Nat :=
  match ct with
  | .kUnknown => 0
  | .kAlpha_8 => 1
  | .kRGBA_8888 => 4
  | .kRGB_888x => 4
  | .kBGRA_8888 => 4
  | .kRGBA_F16 => 8

/-- Color description (`SkColorInfo`): color type plus the remaining fields
(alpha type, color space) abstracted as tags — only (in)equality of whole
descriptions matters to this code (`needsConversion`). -/
structure SkColorInfo where
  colorType : SkColorType
  alphaType : Nat
  colorSpaceId : Nat
deriving Repr, DecidableEq, BEq

/-- Destination texture description (`TextureInfo`): the fields this code reads. -/
structure TextureInfo where
  mipmapped : Bool
  compressionType : SkTextureCompressionType
deriving Repr, DecidableEq, BEq

/-- An abstract GPU texture (identity only). -/
abbrev Texture := Nat

/-- An abstract staging buffer handle (identity only). -/
abbrev Buffer := Nat

/-- `TextureProxy`: dimensions, texture info, and the instantiated texture
(`none` while not instantiated). -/
structure TextureProxy where
  dimensions : SkISize
  textureInfo : TextureInfo
  texture : Option Texture
deriving Repr, DecidableEq, BEq

/-- Device capabilities consumed by this code (`Caps`), as abstract data. -/
structure Caps where
  requiredTransferBufferAlignment : Nat
  getAlignedTextureDataRowBytes : Nat → Nat
  fullCompressedUploadSizeMustAlignToBlockDims : Bool
  supportedWritePixelsColorType : SkColorType → TextureInfo → SkColorType → SkColorType × Bool

/-- Result of `compute_combined_buffer_size`: the returned
`(totalSize, requiredAlignment)` pair plus the filled
`levelOffsetsAndRowBytes` array. -/
structure BufferSizeResult where
  combinedBufferSize : Nat
  minAlignment : Nat
  levelOffsetsAndRowBytes : List (Nat × Nat)
deriving Repr, DecidableEq

/-- The `for (currentMipLevel = 1; ...)` loop of `compute_combined_buffer_size`:
`n` remaining iterations, carrying `levelDimensions`, the running
`combinedBufferSize`, and the accumulated `levelOffsetsAndRowBytes`. -/
def ccbs_loop (caps : Caps) (bytesPerBlock : Nat) (compressionType : SkTextureCompressionType)
    (minTransferBufferAlignment : Nat) :
    Nat → SkISize → Nat → List (Nat × Nat) → Nat × List (Nat × Nat)
  | 0, _, combinedBufferSize, levels => (combinedBufferSize, levels)
  | n + 1, levelDimensions, combinedBufferSize, levels =>
    let levelDimensions' : SkISize :=
      ⟨max 1 (levelDimensions.width / 2), max 1 (levelDimensions.height / 2)⟩
    let compressedBlockDimensions := CompressedDimensionsInBlocks compressionType levelDimensions'
    let alignedBytesPerRow := caps.getAlignedTextureDataRowBytes
        (compressedBlockDimensions.width.toNat * bytesPerBlock)
    let alignedSize := SkAlignTo (alignedBytesPerRow * compressedBlockDimensions.height.toNat)
        minTransferBufferAlignment
    ccbs_loop caps bytesPerBlock compressionType minTransferBufferAlignment
      n levelDimensions' (combinedBufferSize + alignedSize)
      (levels ++ [(combinedBufferSize, alignedBytesPerRow)])

/-- `compute_combined_buffer_size` (UploadTask.cpp lines 51–91): total staging
buffer size, required allocation alignment, and per-level (offset, rowBytes). -/
def compute_combined_buffer_size (caps : Caps) (mipLevelCount : Nat) (bytesPerBlock : Nat)
    (baseDimensions : SkISize) (compressionType : SkTextureCompressionType) : BufferSizeResult :=
  let compressedBlockDimensions := CompressedDimensionsInBlocks compressionType baseDimensions
  let minTransferBufferAlignment := max bytesPerBlock caps.requiredTransferBufferAlignment
  let alignedBytesPerRow := caps.getAlignedTextureDataRowBytes
      (compressedBlockDimensions.width.toNat * bytesPerBlock)
  let combinedBufferSize := SkAlignTo (alignedBytesPerRow * baseDimensions.height.toNat)
      minTransferBufferAlignment
  let (total, levels) := ccbs_loop caps bytesPerBlock compressionType minTransferBufferAlignment
      (mipLevelCount - 1) baseDimensions combinedBufferSize [(0, alignedBytesPerRow)]
  ⟨total, minTransferBufferAlignment, levels⟩

/-- Dimensions of mip level `i`: the base dimensions halved `i` times
(integer halving, minimum 1 per axis), as in the source's level loops. -/
def mipDims (base : SkISize) : Nat → SkISize
  | 0 => base
  | i + 1 =>
    let d := mipDims base i
    ⟨max 1 (d.width / 2), max 1 (d.height / 2)⟩

/-- The aligned row bytes the planner computes for level `i`. -/
def plannerRowBytes (caps : Caps) (bytesPerBlock : Nat) (ct : SkTextureCompressionType)
    (base : SkISize) (i : Nat) : Nat :=
  let bd := CompressedDimensionsInBlocks ct (mipDims base i)
  caps.getAlignedTextureDataRowBytes (bd.width.toNat * bytesPerBlock)

/-- The byte size the planner actually reserves for level `i`: level 0 is
computed from its pixel height (`baseDimensions.height()`, line 70), later
levels from their block-grid height (line 80). -/
def plannerLevelSize (caps : Caps) (bytesPerBlock : Nat) (ct : SkTextureCompressionType)
    (base : SkISize) (i : Nat) : Nat :=
  let minAlign := max bytesPerBlock caps.requiredTransferBufferAlignment
  let d := mipDims base i
  let bd := CompressedDimensionsInBlocks ct d
  let rb := caps.getAlignedTextureDataRowBytes (bd.width.toNat * bytesPerBlock)
  match i with
  | 0 => SkAlignTo (rb * d.height.toNat) minAlign
  | _ + 1 => SkAlignTo (rb * bd.height.toNat) minAlign

/-- The level size the spec's words prescribe for level `i`: always computed
from the block-grid height (`align(rowBytes * blockGridHeight, minAlign)`),
including for level 0.  Kept separate from `plannerLevelSize` so the two can
be compared. -/
def specLevelSize (caps : Caps) (bytesPerBlock : Nat) (ct : SkTextureCompressionType)
    (base : SkISize) (i : Nat) : Nat :=
  let minAlign := max bytesPerBlock caps.requiredTransferBufferAlignment
  let bd := CompressedDimensionsInBlocks ct (mipDims base i)
  let rb := caps.getAlignedTextureDataRowBytes (bd.width.toNat * bytesPerBlock)
  SkAlignTo (rb * bd.height.toNat) minAlign

/-- Sum of the planner's level sizes for levels `0 ≤ i < n`. -/
def plannerSizeSum (caps : Caps) (bytesPerBlock : Nat) (ct : SkTextureCompressionType)
    (base : SkISize) (n : Nat) : Nat :=
  ((List.range n).map (plannerLevelSize caps bytesPerBlock ct base)).sum

/-- One mip level of caller-supplied source data (`MipLevel`): pixel pointer
(`none` = null) and source row stride.  The pointer is an abstract address. -/
structure MipLevel where
  fPixels : Option Nat
  fRowBytes : Nat
deriving Repr, DecidableEq, BEq

instance : Inhabited MipLevel := ⟨⟨none, 0⟩⟩

/-- `BufferTextureCopyData`: one per-level copy descriptor. -/
structure BufferTextureCopyData where
  fBufferOffset : Nat
  fBufferRowBytes : Nat
  fRect : SkIRect
  fMipLevel : Nat
deriving Repr, DecidableEq, BEq

instance : Inhabited BufferTextureCopyData := ⟨⟨0, 0, ⟨0, 0, 0, 0⟩, 0⟩⟩

/-- The conditional-upload predicate (`ConditionalUploadContext`): its
`needsUpload(context)` answer, as a function of the execution context.  The
`uploadSubmitted()` notification is recorded in `AddCommandResult`. -/
structure ConditionalUploadContext where
  needsUpload : Nat → Bool

/-- `UploadInstance`: the immutable plan for one upload. -/
structure UploadInstance where
  fBuffer : Option Buffer
  fBytesPerPixel : Nat
  fTextureProxy : Option TextureProxy
  fCopyData : List BufferTextureCopyData
  fConditionalContext : Option ConditionalUploadContext

/-- The default-constructed no-op sentinel (`UploadInstance()`): no buffer, no
texture proxy, no copy data, no conditional context. -/
def noOpInstance : UploadInstance := ⟨none, 0, none, [], none⟩

/-- `UploadInstance::isValid()`: the texture proxy is non-null. -/
def UploadInstance.isValid (i : UploadInstance) : Bool := i.fTextureProxy.isSome

/-- `UploadBufferManager::getTextureUploadWriter` result: the reserved buffer
(`none` on reservation failure) and the region's base offset. -/
structure BufferInfo where
  fBuffer : Option Buffer
  fOffset : Nat

/-- The collaborators `UploadInstance::Make`/`MakeCompressed` reach through
`recorder`: device caps and the staging-pool reservation. -/
structure MakeEnv where
  caps : Caps
  getTextureUploadWriter : Nat → Nat → BufferInfo

/-- One staging-buffer write performed through the upload writer, with the
arguments the source passes (the pixel bytes themselves stay abstract). -/
inductive WriteEvent where
  | writeRGBFromRGBx (mipOffset : Nat) (dstRowBytes : Nat) (width height : Int)
  | convertAndWrite (mipOffset : Nat) (srcRowBytes dstRowBytes : Nat)
  | write (mipOffset : Nat) (srcRowBytes dstRowBytes trimRowBytes : Nat) (rowCount : Int)
deriving Repr, DecidableEq

/-- Whether a write used the degraded-RGB pack path (`writeRGBFromRGBx`). -/
def WriteEvent.isRGBPack : WriteEvent → Bool
  | .writeRGBFromRGBx _ _ _ _ => true
  | _ => false

/-- The per-level loop of the uncompressed `UploadInstance::Make`
(lines 170–228): walks the zipped (level, (offset, rowBytes)) list carrying
the mip index and current dimensions; produces the copy descriptors and the
writer calls. -/
def uploadLevelLoop (bpp : Nat) (isRGB888Format needsConversion : Bool) (dstRect : SkIRect)
    (baseOffset : Nat) :
    List (MipLevel × (Nat × Nat)) → Nat → Int → Int →
    List BufferTextureCopyData × List WriteEvent
  | [], _, _, _ => ([], [])
  | (level, (mipOffset, dstRowBytes)) :: rest, currentMipLevel, currentWidth, currentHeight =>
    let trimRowBytes := currentWidth.toNat * bpp
    let srcRowBytes := level.fRowBytes
    let ev : WriteEvent :=
      if isRGB888Format then
        .writeRGBFromRGBx mipOffset dstRowBytes currentWidth currentHeight
      else if needsConversion then
        .convertAndWrite mipOffset srcRowBytes dstRowBytes
      else
        .write mipOffset srcRowBytes dstRowBytes trimRowBytes currentHeight
    let cd : BufferTextureCopyData :=
      { fBufferOffset := baseOffset + mipOffset
        fBufferRowBytes := dstRowBytes
        fRect := ⟨dstRect.left, dstRect.top,
                  dstRect.left + currentWidth, dstRect.top + currentHeight⟩
        fMipLevel := currentMipLevel }
    let (cds, evs) := uploadLevelLoop bpp isRGB888Format needsConversion dstRect baseOffset
        rest (currentMipLevel + 1) (max 1 (currentWidth / 2)) (max 1 (currentHeight / 2))
    (cd :: cds, ev :: evs)

/-- `UploadInstance::Make` (uncompressed; lines 93–236).  Returns the instance
together with the writer calls made into the staging region. -/
def UploadInstance.Make (env : MakeEnv) (textureProxy : TextureProxy)
    (srcColorInfo dstColorInfo : SkColorInfo) (levels : List MipLevel) (dstRect : SkIRect)
    (condContext : Option ConditionalUploadContext) : UploadInstance × List WriteEvent :=
  let caps := env.caps
  let mipLevelCount := levels.length
  if dstRect.isEmpty then (noOpInstance, [])
  else if mipLevelCount == 1 && levels.headI.fPixels.isNone then (noOpInstance, [])
  else if levels.any (fun l => l.fPixels.isNone) then (noOpInstance, [])
  else
    let scr :=
      caps.supportedWritePixelsColorType dstColorInfo.colorType textureProxy.textureInfo
        srcColorInfo.colorType
    if scr.1 == SkColorType.kUnknown then (noOpInstance, [])
    else
      let bpp := if scr.2 then 3 else SkColorTypeBytesPerPixel scr.1
      let r := compute_combined_buffer_size caps mipLevelCount bpp dstRect.size
          SkTextureCompressionType.kNone
      let bufferInfo := env.getTextureUploadWriter r.combinedBufferSize r.minAlignment
      match bufferInfo.fBuffer with
      | none => (noOpInstance, [])
      | some buffer =>
        let baseOffset := bufferInfo.fOffset
        let needsConversion := srcColorInfo != dstColorInfo
        let loopRes := uploadLevelLoop bpp scr.2 needsConversion dstRect
            baseOffset (levels.zip r.levelOffsetsAndRowBytes) 0 dstRect.width dstRect.height
        ({ fBuffer := some buffer
           fBytesPerPixel := bpp
           fTextureProxy := some textureProxy
           fCopyData := loopRes.1
           fConditionalContext := condContext }, loopRes.2)

/-- Modelled from the spec: the per-level source byte offsets inside a
compressed blob (`SkCompressedDataSize` of SkCompressedDataUtils, not under
src/): level `i` starts after the packed block data of all previous levels;
one level when not mip-mapped, otherwise levels down to 1×1. -/
def compressedMipOffsets (c : SkTextureCompressionType) (dims : SkISize) (mipmapped : Bool) :
    List Nat :=
  let rec go (w h : Int) (acc : Nat) (fuel : Nat) : List Nat :=
    match fuel with
    | 0 => []
    | fuel + 1 =>
      let levelBytes := CompressedRowBytes c w * ((h + 3) / 4).toNat
      if w ≤ 1 ∧ h ≤ 1 then [acc]
      else acc :: go (max 1 (w / 2)) (max 1 (h / 2)) (acc + levelBytes) fuel
  if mipmapped then go dims.width dims.height 0 (dims.width.toNat + dims.height.toNat + 1)
  else [0]

/-- The per-level loop of `UploadInstance::MakeCompressed` (lines 288–317). -/
def compressedLevelLoop (caps : Caps) (compression : SkTextureCompressionType)
    (baseOffset : Nat) :
    List (Nat × (Nat × Nat)) → Nat → Int → Int →
    List BufferTextureCopyData × List WriteEvent
  | [], _, _, _ => ([], [])
  | (_srcMipOffset, (dstMipOffset, dstRowBytes)) :: rest,
      currentMipLevel, currentWidth, currentHeight =>
    let blockDimensions := CompressedDimensionsInBlocks compression ⟨currentWidth, currentHeight⟩
    let blockHeight := blockDimensions.height
    let trimRowBytes := CompressedRowBytes compression currentWidth
    let srcRowBytes := trimRowBytes
    let ev : WriteEvent := .write dstMipOffset srcRowBytes dstRowBytes trimRowBytes blockHeight
    let copyDims : SkISize :=
      if caps.fullCompressedUploadSizeMustAlignToBlockDims then
        let oneBlockDims := CompressedDimensions compression ⟨1, 1⟩
        ⟨SkAlignToInt currentWidth oneBlockDims.width,
         SkAlignToInt currentHeight oneBlockDims.height⟩
      else ⟨currentWidth, currentHeight⟩
    let cd : BufferTextureCopyData :=
      { fBufferOffset := baseOffset + dstMipOffset
        fBufferRowBytes := dstRowBytes
        fRect := ⟨0, 0, copyDims.width, copyDims.height⟩
        fMipLevel := currentMipLevel }
    let (cds, evs) := compressedLevelLoop caps compression baseOffset rest
        (currentMipLevel + 1) (max 1 (currentWidth / 2)) (max 1 (currentHeight / 2))
    (cd :: cds, ev :: evs)

/-- `UploadInstance::MakeCompressed` (lines 238–325).  Note the final
constructor call passes no conditional context. -/
def UploadInstance.MakeCompressed (env : MakeEnv) (textureProxy : TextureProxy)
    (data : Option Nat) (_dataSize : Nat) : UploadInstance × List WriteEvent :=
  match data with
  | none => (noOpInstance, [])
  | some _ =>
    let texInfo := textureProxy.textureInfo
    let caps := env.caps
    let compression := texInfo.compressionType
    if compression == SkTextureCompressionType.kNone then (noOpInstance, [])
    else
      let srcMipOffsets := compressedMipOffsets compression textureProxy.dimensions
          texInfo.mipmapped
      let mipLevelCount := srcMipOffsets.length
      let bytesPerBlock := SkCompressedBlockSize compression
      let r := compute_combined_buffer_size caps mipLevelCount bytesPerBlock
          textureProxy.dimensions compression
      let bufferInfo := env.getTextureUploadWriter r.combinedBufferSize r.minAlignment
      match bufferInfo.fBuffer with
      | none => (noOpInstance, [])
      | some buffer =>
        let baseOffset := bufferInfo.fOffset
        let loopRes := compressedLevelLoop caps compression baseOffset
            (srcMipOffsets.zip r.levelOffsetsAndRowBytes) 0
            textureProxy.dimensions.width textureProxy.dimensions.height
        ({ fBuffer := some buffer
           fBytesPerPixel := bytesPerBlock
           fTextureProxy := some textureProxy
           fCopyData := loopRes.1
           fConditionalContext := none }, loopRes.2)

/-- Modelled from the spec: `TextureProxy::InstantiateIfNotLazy`
(TextureProxy.cpp, not under src/): an already-instantiated proxy succeeds
immediately, otherwise the resource provider must be able to instantiate it
now.  The provider's success/failure is abstracted as a predicate. -/
structure ResourceProvider where
  canInstantiate : TextureProxy → Bool

def TextureProxy.InstantiateIfNotLazy (rp : ResourceProvider) (p : TextureProxy) : Bool :=
  match p.texture with
  | some _ => true
  | none => rp.canInstantiate p

/-- `UploadInstance::prepareResources` (lines 327–337). -/
def UploadInstance.prepareResources (inst : UploadInstance) (rp : ResourceProvider) : Bool :=
  match inst.fTextureProxy with
  | none => false
  | some proxy => TextureProxy.InstantiateIfNotLazy rp proxy

/-- The replay-target data handed to `addCommand`. -/
structure ReplayTargetData where
  fTarget : Option Texture
  fTranslation : Int × Int

/-- One `copyBufferToTexture` call recorded on the command buffer. -/
structure CopyCommand where
  buffer : Option Buffer
  texture : Texture
  copies : List BufferTextureCopyData

/-- The observable effects of one `addCommand` call: the copy commands
recorded on the command buffer, whether the conditional context's
`needsUpload` query ran, and whether its `uploadSubmitted` notification ran. -/
structure AddCommandResult where
  commands : List CopyCommand
  queriedNeedsUpload : Bool
  notifiedSubmitted : Bool

/-- `UploadInstance::addCommand` (lines 339–379).  The source asserts a
non-null, instantiated texture proxy; for inputs violating that assertion the
model records no effects.  In the replay branch the source asserts exactly one
copy descriptor and then reads `fCopyData[0]`; the model likewise uses the
head of the list. -/
def UploadInstance.addCommand (inst : UploadInstance) (context : Nat)
    (replayData : ReplayTargetData) : AddCommandResult :=
  match inst.fTextureProxy with
  | none => ⟨[], false, false⟩
  | some proxy =>
    match proxy.texture with
    | none => ⟨[], false, false⟩
    | some tex =>
      let queried := inst.fConditionalContext.isSome
      if inst.fConditionalContext.elim false (fun cc => !cc.needsUpload context) then
        ⟨[], queried, false⟩
      else if some tex ≠ replayData.fTarget then
        ⟨[⟨inst.fBuffer, tex, inst.fCopyData⟩], queried, inst.fConditionalContext.isSome⟩
      else
        match inst.fCopyData with
        | [] => ⟨[], queried, false⟩
        | copyData :: _ =>
          let dstRect := copyData.fRect.offsetBy replayData.fTranslation.1
              replayData.fTranslation.2
          match dstRect.intersect (SkIRect.MakeSize proxy.dimensions) with
          | none => ⟨[], queried, false⟩
          | some croppedDstRect =>
            let transformedCopyData : BufferTextureCopyData :=
              { copyData with
                fBufferOffset := copyData.fBufferOffset +
                    (croppedDstRect.top - dstRect.top).toNat * copyData.fBufferRowBytes +
                    (croppedDstRect.left - dstRect.left).toNat * inst.fBytesPerPixel
                fRect := croppedDstRect }
            ⟨[⟨inst.fBuffer, tex, [transformedCopyData]⟩], queried,
              inst.fConditionalContext.isSome⟩

/-- `UploadList::recordUpload` (lines 383–399): plan via `Make`; drop invalid
instances, append valid ones.  Returns the success flag and the new list. -/
def UploadList.recordUpload (fInstances : List UploadInstance) (env : MakeEnv)
    (textureProxy : TextureProxy) (srcColorInfo dstColorInfo : SkColorInfo)
    (levels : List MipLevel) (dstRect : SkIRect)
    (condContext : Option ConditionalUploadContext) : Bool × List UploadInstance :=
  let instFromMake := (UploadInstance.Make env textureProxy srcColorInfo dstColorInfo levels
      dstRect condContext).1
  if !instFromMake.isValid then (false, fInstances)
  else (true, fInstances ++ [instFromMake])

/-- `UploadTask::prepareResources` (lines 423–432), with an explicit trace of
the instances whose own `prepareResources` actually ran (the loop stops at the
first failure). -/
def UploadTask.prepareResources (rp : ResourceProvider) :
    List UploadInstance → Bool × List UploadInstance
  | [] => (true, [])
  | inst :: rest =>
    if inst.prepareResources rp then
      let (b, tr) := UploadTask.prepareResources rp rest
      (b, inst :: tr)
    else (false, [inst])

/-! ## Structure of the Layout Planner -/

/-- Proof-side reformulation of the planner's level loop: processing levels
`s, s+1, …, s+n-1` with running total `acc`, where `f` gives per-level sizes
and `rB` per-level row bytes. -/
def plannerTail (f rB : Nat → Nat) : Nat → Nat → Nat → Nat × List (Nat × Nat)
  | acc, _, 0 => (acc, [])
  | acc, s, n + 1 =>
    let (t, ls) := plannerTail f rB (acc + f s) (s + 1) n
    (t, (acc, rB s) :: ls)

/-- The planner's recorded offset for level `m`: the sum of the sizes of all
earlier levels. -/
def plannerOffset (caps : Caps) (bytesPerBlock : Nat) (ct : SkTextureCompressionType)
    (base : SkISize) (m : Nat) : Nat :=
  ((List.range m).map (plannerLevelSize caps bytesPerBlock ct base)).sum

lemma ccbs_loop_eq_plannerTail (caps : Caps) (bytesPerBlock : Nat)
    (ct : SkTextureCompressionType) (base : SkISize) :
    ∀ (n k acc : Nat) (levels : List (Nat × Nat)),
      ccbs_loop caps bytesPerBlock ct (max bytesPerBlock caps.requiredTransferBufferAlignment)
          n (mipDims base k) acc levels =
        ((plannerTail (plannerLevelSize caps bytesPerBlock ct base)
            (plannerRowBytes caps bytesPerBlock ct base) acc (k + 1) n).1,
         levels ++ (plannerTail (plannerLevelSize caps bytesPerBlock ct base)
            (plannerRowBytes caps bytesPerBlock ct base) acc (k + 1) n).2) := by
  intro n
  induction n with
  | zero => intro k acc levels; simp [ccbs_loop, plannerTail]
  | succ n ih =>
    intro k acc levels
    have hdims : (⟨max 1 ((mipDims base k).width / 2),
        max 1 ((mipDims base k).height / 2)⟩ : SkISize) = mipDims base (k + 1) := rfl
    have hsize : SkAlignTo
        (caps.getAlignedTextureDataRowBytes
            ((CompressedDimensionsInBlocks ct (mipDims base (k + 1))).width.toNat * bytesPerBlock)
          * (CompressedDimensionsInBlocks ct (mipDims base (k + 1))).height.toNat)
        (max bytesPerBlock caps.requiredTransferBufferAlignment)
        = plannerLevelSize caps bytesPerBlock ct base (k + 1) := rfl
    have hrb : caps.getAlignedTextureDataRowBytes
        ((CompressedDimensionsInBlocks ct (mipDims base (k + 1))).width.toNat * bytesPerBlock)
        = plannerRowBytes caps bytesPerBlock ct base (k + 1) := rfl
    show ccbs_loop caps bytesPerBlock ct
        (max bytesPerBlock caps.requiredTransferBufferAlignment) n (mipDims base (k + 1))
        (acc + plannerLevelSize caps bytesPerBlock ct base (k + 1))
        (levels ++ [(acc, plannerRowBytes caps bytesPerBlock ct base (k + 1))]) = _
    rw [ih (k + 1) (acc + plannerLevelSize caps bytesPerBlock ct base (k + 1))
        (levels ++ [(acc, plannerRowBytes caps bytesPerBlock ct base (k + 1))])]
    simp [plannerTail, List.append_assoc]

lemma plannerTail_fst (f rB : Nat → Nat) :
    ∀ (n s acc : Nat), (plannerTail f rB acc s n).1 = acc + ((List.range' s n).map f).sum := by
  intro n
  induction n with
  | zero => intro s acc; simp [plannerTail]
  | succ n ih =>
    intro s acc
    simp only [plannerTail, List.range'_succ, List.map_cons, List.sum_cons]
    rw [ih (s + 1) (acc + f s)]
    omega

lemma plannerTail_snd (f rB : Nat → Nat) :
    ∀ (n s acc : Nat), (plannerTail f rB acc s n).2 =
      (List.range' s n).map (fun m => (acc + ((List.range' s (m - s)).map f).sum, rB m)) := by
  intro n
  induction n with
  | zero => intro s acc; simp [plannerTail]
  | succ n ih =>
    intro s acc
    simp only [plannerTail, List.range'_succ, List.map_cons]
    rw [ih (s + 1) (acc + f s)]
    refine congrArg₂ _ (by simp) ?_
    refine List.map_congr_left fun m hm => ?_
    have hs : s + 1 ≤ m := (List.mem_range'_1.mp hm).1
    have hms : m - s = (m - (s + 1)) + 1 := by omega
    rw [hms, List.range'_succ, List.map_cons, List.sum_cons, Nat.add_assoc]

/-- Closed form of `compute_combined_buffer_size` for `mipLevelCount ≥ 1`:
the total is the sum of the per-level sizes, the required alignment is
`max(bytesPerBlock, requiredTransferBufferAlignment)`, and level `m` records
offset `plannerOffset m` with row bytes `plannerRowBytes m`. -/
lemma compute_combined_buffer_size_spec (caps : Caps) (bytesPerBlock : Nat)
    (base : SkISize) (ct : SkTextureCompressionType) (n : Nat) (hn : 1 ≤ n) :
    compute_combined_buffer_size caps n bytesPerBlock base ct =
      ⟨plannerSizeSum caps bytesPerBlock ct base n,
       max bytesPerBlock caps.requiredTransferBufferAlignment,
       (List.range n).map (fun m => (plannerOffset caps bytesPerBlock ct base m,
          plannerRowBytes caps bytesPerBlock ct base m))⟩ := by
  have hinit : SkAlignTo
      (caps.getAlignedTextureDataRowBytes
          ((CompressedDimensionsInBlocks ct base).width.toNat * bytesPerBlock)
        * base.height.toNat)
      (max bytesPerBlock caps.requiredTransferBufferAlignment)
      = plannerLevelSize caps bytesPerBlock ct base 0 := rfl
  have hrb0 : caps.getAlignedTextureDataRowBytes
      ((CompressedDimensionsInBlocks ct base).width.toNat * bytesPerBlock)
      = plannerRowBytes caps bytesPerBlock ct base 0 := rfl
  have hbase : base = mipDims base 0 := rfl
  show (let r := ccbs_loop caps bytesPerBlock ct
          (max bytesPerBlock caps.requiredTransferBufferAlignment) (n - 1) base
          (SkAlignTo
            (caps.getAlignedTextureDataRowBytes
                ((CompressedDimensionsInBlocks ct base).width.toNat * bytesPerBlock)
              * base.height.toNat)
            (max bytesPerBlock caps.requiredTransferBufferAlignment))
          [(0, caps.getAlignedTextureDataRowBytes
              ((CompressedDimensionsInBlocks ct base).width.toNat * bytesPerBlock))]
        (⟨r.1, max bytesPerBlock caps.requiredTransferBufferAlignment, r.2⟩ : BufferSizeResult)) = _
  rw [hinit, hrb0]
  rw [show ccbs_loop caps bytesPerBlock ct
        (max bytesPerBlock caps.requiredTransferBufferAlignment) (n - 1) base
        (plannerLevelSize caps bytesPerBlock ct base 0)
        [(0, plannerRowBytes caps bytesPerBlock ct base 0)]
      = ccbs_loop caps bytesPerBlock ct
        (max bytesPerBlock caps.requiredTransferBufferAlignment) (n - 1) (mipDims base 0)
        (plannerLevelSize caps bytesPerBlock ct base 0)
        [(0, plannerRowBytes caps bytesPerBlock ct base 0)] from rfl]
  rw [ccbs_loop_eq_plannerTail caps bytesPerBlock ct base (n - 1) 0
      (plannerLevelSize caps bytesPerBlock ct base 0)
      [(0, plannerRowBytes caps bytesPerBlock ct base 0)]]
  rw [plannerTail_fst, plannerTail_snd]
  have hrange : List.range n = 0 :: List.range' 1 (n - 1) := by
    rcases Nat.exists_eq_add_of_le hn with ⟨m, hm⟩
    subst hm
    rw [List.range_eq_range', Nat.add_comm 1 m, List.range'_succ]
    norm_num
  simp only [Nat.zero_add, BufferSizeResult.mk.injEq]
  refine ⟨?_, trivial, ?_⟩
  · rw [plannerSizeSum, hrange]
    simp
  · rw [hrange, List.map_cons, List.singleton_append]
    refine congrArg₂ _ (by simp [plannerOffset]) ?_
    refine List.map_congr_left fun m hm => ?_
    have h1 : 1 ≤ m := (List.mem_range'_1.mp hm).1
    have hms : m = (m - 1) + 1 := by omega
    refine congrArg₂ _ ?_ rfl
    rw [plannerOffset, List.range_eq_range']
    conv_rhs => rw [hms, List.range'_succ, List.map_cons, List.sum_cons]

lemma dvd_SkAlignTo (x a : Nat) : a ∣ SkAlignTo x a := dvd_mul_left a _

lemma dvd_plannerLevelSize (caps : Caps) (bytesPerBlock : Nat)
    (ct : SkTextureCompressionType) (base : SkISize) (i : Nat) :
    (max bytesPerBlock caps.requiredTransferBufferAlignment)
      ∣ plannerLevelSize caps bytesPerBlock ct base i := by
  cases i <;> exact dvd_mul_left _ _

lemma dvd_plannerOffset (caps : Caps) (bytesPerBlock : Nat)
    (ct : SkTextureCompressionType) (base : SkISize) (m : Nat) :
    (max bytesPerBlock caps.requiredTransferBufferAlignment)
      ∣ plannerOffset caps bytesPerBlock ct base m := by
  refine List.dvd_sum fun x hx => ?_
  rcases List.mem_map.mp hx with ⟨j, _, rfl⟩
  exact dvd_plannerLevelSize caps bytesPerBlock ct base j

/-! ## Fixtures for concrete evaluations -/

/-- A caps fixture: transfer alignment 1, identity row-byte alignment. -/
def capsRowIdOne : Caps :=
  { requiredTransferBufferAlignment := 1
    getAlignedTextureDataRowBytes := fun n => n
    fullCompressedUploadSizeMustAlignToBlockDims := false
    supportedWritePixelsColorType := fun _ _ _ => (.kRGBA_8888, false) }

/-- A caps fixture: transfer alignment 2, identity row-byte alignment. -/
def capsRowIdTwo : Caps :=
  { capsRowIdOne with requiredTransferBufferAlignment := 2 }

/-- A caps fixture: transfer alignment 4, identity row-byte alignment. -/
def capsRowIdFour : Caps :=
  { capsRowIdOne with requiredTransferBufferAlignment := 4 }

/-! ## Claim C1 -/

/-- Claim C1, as stated, is false: for a block-compressed mode the planner
computes level 0's size from its pixel height, not its block-grid height.
With 4×4-block compression, a 4×4 base (block grid 1×1, aligned row bytes 8)
and trivial alignment, the only recorded level size — the total — is
`8 * 4 = 32`, while the claim's formula `align(8 * 1, 8)` gives 8. -/
theorem C1_counterexample :
    (compute_combined_buffer_size capsRowIdOne 1 8 ⟨4, 4⟩
        SkTextureCompressionType.kETC2_RGB8_UNORM).combinedBufferSize
      ≠ specLevelSize capsRowIdOne 8 SkTextureCompressionType.kETC2_RGB8_UNORM ⟨4, 4⟩ 0 := by
  decide

/-- Claim C1 (amended): for every planner call with `levelCount ≥ 1`, level
`m` records offset `plannerOffset m` (the sum of the earlier level sizes) and
aligned row bytes `plannerRowBytes m`, and the total is the sum of the level
sizes — where the size of level 0 is `align(alignedRowBytes * pixelHeight,
minTransferAlignment)` (the pixel height of the base dimensions, even for
block-compressed modes) and the size of each level `i ≥ 1` is
`align(alignedRowBytes_i * blockGridHeight_i, minTransferAlignment)`
(see `plannerLevelSize`). -/
theorem C1_amended_planner_sizes (caps : Caps) (bytesPerBlock : Nat) (base : SkISize)
    (ct : SkTextureCompressionType) (n : Nat) (hn : 1 ≤ n) :
    compute_combined_buffer_size caps n bytesPerBlock base ct =
      ⟨plannerSizeSum caps bytesPerBlock ct base n,
       max bytesPerBlock caps.requiredTransferBufferAlignment,
       (List.range n).map (fun m => (plannerOffset caps bytesPerBlock ct base m,
          plannerRowBytes caps bytesPerBlock ct base m))⟩ :=
  compute_combined_buffer_size_spec caps bytesPerBlock base ct n hn

/-- Claim C1 witness: the amended theorem evaluated at a concrete
block-compressed call (two levels, 8×5 base, 4×4 blocks). -/
theorem C1_witness :
    compute_combined_buffer_size capsRowIdFour 2 8 ⟨8, 5⟩
        SkTextureCompressionType.kBC1_RGB8_UNORM =
      ⟨plannerSizeSum capsRowIdFour 8 SkTextureCompressionType.kBC1_RGB8_UNORM ⟨8, 5⟩ 2,
       max 8 capsRowIdFour.requiredTransferBufferAlignment,
       (List.range 2).map (fun m =>
          (plannerOffset capsRowIdFour 8 SkTextureCompressionType.kBC1_RGB8_UNORM ⟨8, 5⟩ m,
           plannerRowBytes capsRowIdFour 8 SkTextureCompressionType.kBC1_RGB8_UNORM ⟨8, 5⟩ m))⟩ :=
  C1_amended_planner_sizes capsRowIdFour 8 ⟨8, 5⟩
    SkTextureCompressionType.kBC1_RGB8_UNORM 2 (by decide)

/-! ## Claim C5 -/

/-- Claim C5, as stated, is false in its first conjunct: recorded level
offsets are multiples of `max(bytesPerBlock, minTransferAlignment)` but not
necessarily of the device's `minTransferAlignment` itself.  With
`bytesPerBlock = 3` (the degraded RGB format's size, passed by `Make`) and
device alignment 2, a two-level 1×1 upload records offsets `[0, 3]`, and 3 is
not a multiple of 2. -/
theorem C5_counterexample :
    ((compute_combined_buffer_size capsRowIdTwo 2 3 ⟨1, 1⟩
        SkTextureCompressionType.kNone).levelOffsetsAndRowBytes.all
      (fun p => p.1 % capsRowIdTwo.requiredTransferBufferAlignment == 0)) = false := by
  decide

/-- Claim C5 (amended): for every planner call with `mipLevelCount ≥ 1`, the
returned `requiredAlignment` equals `max(bytesPerBlock, minTransferAlignment)`;
every recorded level offset is a multiple of that `requiredAlignment` (hence
of `minTransferAlignment` whenever `bytesPerBlock ≤ minTransferAlignment`,
though not of `minTransferAlignment` in general); the sum of the per-level
sizes equals the returned `totalSize`; and `totalSize` is a multiple of
`requiredAlignment`. -/
theorem C5_amended_planner_alignment (caps : Caps) (bytesPerBlock : Nat) (base : SkISize)
    (ct : SkTextureCompressionType) (n : Nat) (hn : 1 ≤ n) :
    (compute_combined_buffer_size caps n bytesPerBlock base ct).minAlignment
        = max bytesPerBlock caps.requiredTransferBufferAlignment ∧
    (∀ p ∈ (compute_combined_buffer_size caps n bytesPerBlock base ct).levelOffsetsAndRowBytes,
        max bytesPerBlock caps.requiredTransferBufferAlignment ∣ p.1) ∧
    (compute_combined_buffer_size caps n bytesPerBlock base ct).combinedBufferSize
        = plannerSizeSum caps bytesPerBlock ct base n ∧
    max bytesPerBlock caps.requiredTransferBufferAlignment
        ∣ (compute_combined_buffer_size caps n bytesPerBlock base ct).combinedBufferSize := by
  rw [compute_combined_buffer_size_spec caps bytesPerBlock base ct n hn]
  refine ⟨rfl, ?_, rfl, ?_⟩
  · intro p hp
    rcases List.mem_map.mp hp with ⟨m, _, rfl⟩
    exact dvd_plannerOffset caps bytesPerBlock ct base m
  · refine List.dvd_sum fun x hx => ?_
    rcases List.mem_map.mp hx with ⟨j, _, rfl⟩
    exact dvd_plannerLevelSize caps bytesPerBlock ct base j

/-- Claim C5 witness: the amended theorem evaluated at the concrete call of
the counterexample, where `requiredAlignment = max 3 2 = 3` and the offsets
`[0, 3]` are multiples of 3. -/
theorem C5_witness :
    (compute_combined_buffer_size capsRowIdTwo 2 3 ⟨1, 1⟩
        SkTextureCompressionType.kNone).minAlignment
        = max 3 capsRowIdTwo.requiredTransferBufferAlignment ∧
    (∀ p ∈ (compute_combined_buffer_size capsRowIdTwo 2 3 ⟨1, 1⟩
        SkTextureCompressionType.kNone).levelOffsetsAndRowBytes,
        max 3 capsRowIdTwo.requiredTransferBufferAlignment ∣ p.1) ∧
    (compute_combined_buffer_size capsRowIdTwo 2 3 ⟨1, 1⟩
        SkTextureCompressionType.kNone).combinedBufferSize
        = plannerSizeSum capsRowIdTwo 3 SkTextureCompressionType.kNone ⟨1, 1⟩ 2 ∧
    max 3 capsRowIdTwo.requiredTransferBufferAlignment
        ∣ (compute_combined_buffer_size capsRowIdTwo 2 3 ⟨1, 1⟩
            SkTextureCompressionType.kNone).combinedBufferSize :=
  C5_amended_planner_alignment capsRowIdTwo 3 ⟨1, 1⟩
    SkTextureCompressionType.kNone 2 (by decide)

/-! ## Structure of the uncompressed `Make` -/

lemma mipDims_halve (d : SkISize) (t : Nat) :
    mipDims ⟨max 1 (d.width / 2), max 1 (d.height / 2)⟩ t = mipDims d (t + 1) := by
  induction t with
  | zero => rfl
  | succ t ih => rw [mipDims, ih]; rfl

lemma uploadLevelLoop_fst_getElem (bpp : Nat) (isRGB888Format needsConversion : Bool)
    (dstRect : SkIRect) (baseOffset : Nat) :
    ∀ (ps : List (MipLevel × (Nat × Nat))) (i : Nat) (w h : Int) (t : Nat),
      ((uploadLevelLoop bpp isRGB888Format needsConversion dstRect baseOffset ps i w h).1)[t]? =
        ps[t]?.map (fun p =>
          { fBufferOffset := baseOffset + p.2.1
            fBufferRowBytes := p.2.2
            fRect := ⟨dstRect.left, dstRect.top,
                      dstRect.left + (mipDims ⟨w, h⟩ t).width,
                      dstRect.top + (mipDims ⟨w, h⟩ t).height⟩
            fMipLevel := i + t }) := by
  intro ps
  induction ps with
  | nil => intro i w h t; simp [uploadLevelLoop]
  | cons p rest ih =>
    intro i w h t
    cases t with
    | zero => simp [uploadLevelLoop, mipDims]
    | succ t =>
      simp only [uploadLevelLoop, List.getElem?_cons_succ]
      rw [ih (i + 1) (max 1 (w / 2)) (max 1 (h / 2)) t]
      have hFG : (fun (p : MipLevel × (Nat × Nat)) =>
          ({ fBufferOffset := baseOffset + p.2.1
             fBufferRowBytes := p.2.2
             fRect := ⟨dstRect.left, dstRect.top,
                       dstRect.left + (mipDims ⟨max 1 (w / 2), max 1 (h / 2)⟩ t).width,
                       dstRect.top + (mipDims ⟨max 1 (w / 2), max 1 (h / 2)⟩ t).height⟩
             fMipLevel := i + 1 + t } : BufferTextureCopyData)) =
          (fun (p : MipLevel × (Nat × Nat)) =>
          ({ fBufferOffset := baseOffset + p.2.1
             fBufferRowBytes := p.2.2
             fRect := ⟨dstRect.left, dstRect.top,
                       dstRect.left + (mipDims ⟨w, h⟩ (t + 1)).width,
                       dstRect.top + (mipDims ⟨w, h⟩ (t + 1)).height⟩
             fMipLevel := i + (t + 1) } : BufferTextureCopyData)) := by
        funext p
        rw [mipDims_halve ⟨w, h⟩ t, show i + 1 + t = i + (t + 1) from by omega]
      rw [hFG]

lemma uploadLevelLoop_fst_length (bpp : Nat) (isRGB888Format needsConversion : Bool)
    (dstRect : SkIRect) (baseOffset : Nat) :
    ∀ (ps : List (MipLevel × (Nat × Nat))) (i : Nat) (w h : Int),
      ((uploadLevelLoop bpp isRGB888Format needsConversion dstRect baseOffset ps i w h).1).length
        = ps.length := by
  intro ps
  induction ps with
  | nil => intro i w h; simp [uploadLevelLoop]
  | cons p rest ih =>
    intro i w h
    simp [uploadLevelLoop, ih]

lemma uploadLevelLoop_snd_length (bpp : Nat) (isRGB888Format needsConversion : Bool)
    (dstRect : SkIRect) (baseOffset : Nat) :
    ∀ (ps : List (MipLevel × (Nat × Nat))) (i : Nat) (w h : Int),
      ((uploadLevelLoop bpp isRGB888Format needsConversion dstRect baseOffset ps i w h).2).length
        = ps.length := by
  intro ps
  induction ps with
  | nil => intro i w h; simp [uploadLevelLoop]
  | cons p rest ih =>
    intro i w h
    simp [uploadLevelLoop, ih]

lemma uploadLevelLoop_snd_rgb (bpp : Nat) (needsConversion : Bool)
    (dstRect : SkIRect) (baseOffset : Nat) :
    ∀ (ps : List (MipLevel × (Nat × Nat))) (i : Nat) (w h : Int),
      ((uploadLevelLoop bpp true needsConversion dstRect baseOffset ps i w h).2).all
        WriteEvent.isRGBPack = true := by
  intro ps
  induction ps with
  | nil => intro i w h; simp [uploadLevelLoop]
  | cons p rest ih =>
    intro i w h
    simp [uploadLevelLoop, WriteEvent.isRGBPack, ih]

/-- The bytes-per-pixel the uncompressed `Make` resolves (line 145). -/
def makeBpp (caps : Caps) (tp : TextureProxy) (src dst : SkColorInfo) : Nat :=
  let scr := caps.supportedWritePixelsColorType dst.colorType tp.textureInfo src.colorType
  if scr.2 then 3 else SkColorTypeBytesPerPixel scr.1

/-- The planner call the uncompressed `Make` performs (lines 148–154). -/
def makePlanner (caps : Caps) (tp : TextureProxy) (src dst : SkColorInfo)
    (levels : List MipLevel) (rect : SkIRect) : BufferSizeResult :=
  compute_combined_buffer_size caps levels.length (makeBpp caps tp src dst) rect.size
    SkTextureCompressionType.kNone

/-- When none of the four early-out conditions holds, the uncompressed `Make`
reduces to the staging-pool reservation match. -/
lemma Make_eq_main (env : MakeEnv) (tp : TextureProxy) (src dst : SkColorInfo)
    (levels : List MipLevel) (rect : SkIRect) (cc : Option ConditionalUploadContext)
    (h1 : ¬ rect.isEmpty = true)
    (h2 : ¬ (levels.length == 1 && levels.headI.fPixels.isNone) = true)
    (h3 : ¬ (levels.any fun l => l.fPixels.isNone) = true)
    (h4 : ¬ ((env.caps.supportedWritePixelsColorType dst.colorType tp.textureInfo
        src.colorType).1 == SkColorType.kUnknown) = true) :
    UploadInstance.Make env tp src dst levels rect cc =
      match (env.getTextureUploadWriter
          (makePlanner env.caps tp src dst levels rect).combinedBufferSize
          (makePlanner env.caps tp src dst levels rect).minAlignment).fBuffer with
      | none => (noOpInstance, [])
      | some buffer =>
        ({ fBuffer := some buffer
           fBytesPerPixel := makeBpp env.caps tp src dst
           fTextureProxy := some tp
           fCopyData := (uploadLevelLoop (makeBpp env.caps tp src dst)
              (env.caps.supportedWritePixelsColorType dst.colorType tp.textureInfo
                src.colorType).2
              (src != dst) rect
              (env.getTextureUploadWriter
                  (makePlanner env.caps tp src dst levels rect).combinedBufferSize
                  (makePlanner env.caps tp src dst levels rect).minAlignment).fOffset
              (levels.zip (makePlanner env.caps tp src dst levels rect).levelOffsetsAndRowBytes)
              0 rect.width rect.height).1
           fConditionalContext := cc },
         (uploadLevelLoop (makeBpp env.caps tp src dst)
            (env.caps.supportedWritePixelsColorType dst.colorType tp.textureInfo
              src.colorType).2
            (src != dst) rect
            (env.getTextureUploadWriter
                (makePlanner env.caps tp src dst levels rect).combinedBufferSize
                (makePlanner env.caps tp src dst levels rect).minAlignment).fOffset
            (levels.zip (makePlanner env.caps tp src dst levels rect).levelOffsetsAndRowBytes)
            0 rect.width rect.height).2) := by
  simp only [UploadInstance.Make]
  rw [if_neg h1, if_neg h2, if_neg h3, if_neg h4]
  rfl

/-- When the uncompressed `Make` returns a valid instance, it took the main
branch: the destination rect is non-empty and the instance's fields are the
main branch's values. -/
lemma Make_of_valid (env : MakeEnv) (tp : TextureProxy) (src dst : SkColorInfo)
    (levels : List MipLevel) (rect : SkIRect) (cc : Option ConditionalUploadContext)
    (h : ((UploadInstance.Make env tp src dst levels rect cc).1).isValid = true) :
    rect.isEmpty = false ∧
    ∃ buffer,
      (env.getTextureUploadWriter (makePlanner env.caps tp src dst levels rect).combinedBufferSize
          (makePlanner env.caps tp src dst levels rect).minAlignment).fBuffer = some buffer ∧
      UploadInstance.Make env tp src dst levels rect cc =
        ({ fBuffer := some buffer
           fBytesPerPixel := makeBpp env.caps tp src dst
           fTextureProxy := some tp
           fCopyData := (uploadLevelLoop (makeBpp env.caps tp src dst)
              (env.caps.supportedWritePixelsColorType dst.colorType tp.textureInfo
                src.colorType).2
              (src != dst) rect
              (env.getTextureUploadWriter
                  (makePlanner env.caps tp src dst levels rect).combinedBufferSize
                  (makePlanner env.caps tp src dst levels rect).minAlignment).fOffset
              (levels.zip (makePlanner env.caps tp src dst levels rect).levelOffsetsAndRowBytes)
              0 rect.width rect.height).1
           fConditionalContext := cc },
         (uploadLevelLoop (makeBpp env.caps tp src dst)
            (env.caps.supportedWritePixelsColorType dst.colorType tp.textureInfo
              src.colorType).2
            (src != dst) rect
            (env.getTextureUploadWriter
                (makePlanner env.caps tp src dst levels rect).combinedBufferSize
                (makePlanner env.caps tp src dst levels rect).minAlignment).fOffset
            (levels.zip (makePlanner env.caps tp src dst levels rect).levelOffsetsAndRowBytes)
            0 rect.width rect.height).2) := by
  by_cases h1 : rect.isEmpty
  · simp [UploadInstance.Make, h1, noOpInstance, UploadInstance.isValid] at h
  by_cases h2 : (levels.length == 1 && levels.headI.fPixels.isNone) = true
  · simp [UploadInstance.Make, h1, h2, noOpInstance, UploadInstance.isValid] at h
  by_cases h3 : (levels.any fun l => l.fPixels.isNone) = true
  · simp [UploadInstance.Make, h1, h2, h3, noOpInstance, UploadInstance.isValid] at h
  by_cases h4 : ((env.caps.supportedWritePixelsColorType dst.colorType tp.textureInfo
      src.colorType).1 == SkColorType.kUnknown) = true
  · simp [UploadInstance.Make, h1, h2, h3, h4, noOpInstance, UploadInstance.isValid] at h
  have hmain := Make_eq_main env tp src dst levels rect cc h1 h2 h3 h4
  refine ⟨by simp at h1; exact h1, ?_⟩
  rcases hbuf : (env.getTextureUploadWriter
      (makePlanner env.caps tp src dst levels rect).combinedBufferSize
      (makePlanner env.caps tp src dst levels rect).minAlignment).fBuffer with _ | buffer
  · rw [hbuf] at hmain
    rw [hmain] at h
    simp [noOpInstance, UploadInstance.isValid] at h
  · rw [hbuf] at hmain
    exact ⟨buffer, rfl, hmain⟩

/-- Rebuilding a rect from its top-left corner and its width/height gives the
rect back. -/
lemma rect_rebuild (r : SkIRect) :
    (⟨r.left, r.top, r.left + r.width, r.top + r.height⟩ : SkIRect) = r := by
  obtain ⟨l, t, rr, b⟩ := r
  show (⟨l, t, l + (rr - l), t + (b - t)⟩ : SkIRect) = ⟨l, t, rr, b⟩
  rw [show l + (rr - l) = rr from by omega, show t + (b - t) = b from by omega]

/-- The destination rect `Make` computes for mip level `t`: anchored at the
caller rect's top-left, with the dimensions halved `t` times
(integer halving, minimum 1). -/
def mipRect (rect : SkIRect) (t : Nat) : SkIRect :=
  ⟨rect.left, rect.top,
   rect.left + (mipDims rect.size t).width,
   rect.top + (mipDims rect.size t).height⟩

/-! ## Fixtures for `Make`-based claims -/

/-- A mip-mapped, uncompressed texture description. -/
def texInfoMip : TextureInfo := { mipmapped := true, compressionType := .kNone }

/-- A 5×5 mip-mapped destination proxy, already instantiated as texture 7. -/
def proxyFive : TextureProxy :=
  { dimensions := ⟨5, 5⟩, textureInfo := texInfoMip, texture := some 7 }

/-- An 8×7 destination proxy, already instantiated as texture 7. -/
def proxyEightSeven : TextureProxy :=
  { dimensions := ⟨8, 7⟩, textureInfo := texInfoMip, texture := some 7 }

/-- An environment whose staging pool always reserves buffer 3 at offset 0. -/
def envStd : MakeEnv :=
  { caps := capsRowIdFour, getTextureUploadWriter := fun _ _ => ⟨some 3, 0⟩ }

/-- An environment whose staging pool can never satisfy a reservation. -/
def envNoBuffer : MakeEnv :=
  { caps := capsRowIdFour, getTextureUploadWriter := fun _ _ => ⟨none, 0⟩ }

/-- An RGBA color description. -/
def ciRGBA : SkColorInfo := ⟨.kRGBA_8888, 1, 1⟩

/-- A mip level with pixel data present. -/
def lvlStd : MipLevel := ⟨some 0, 64⟩

/-- A mip level with no pixel data (null pointer). -/
def lvlNull : MipLevel := ⟨none, 64⟩

/-! ## Claim C2 -/

/-- Claim C2, as stated, is false: mip dimensions halve rounding down (C++
integer division), not up.  A valid 3-level upload of a 5×5 texture records
level 1 as 2×2 (`5 / 2 = 2`), while the claim's round-up halving predicts 3
(`(5 + 1) / 2`). -/
theorem C2_counterexample :
    ((UploadInstance.Make envStd proxyFive ciRGBA ciRGBA [lvlStd, lvlStd, lvlStd]
        ⟨0, 0, 5, 5⟩ none).1).isValid = true ∧
    (((UploadInstance.Make envStd proxyFive ciRGBA ciRGBA [lvlStd, lvlStd, lvlStd]
        ⟨0, 0, 5, 5⟩ none).1).fCopyData.getD 1 default).fRect = ⟨0, 0, 2, 2⟩ ∧
    ¬ ((2 : Int) = max 1 ((5 + 1) / 2)) := by
  refine ⟨by decide, by decide, by decide⟩

/-- Claim C2 (amended): every valid instance from the uncompressed `Make`
with `N ≥ 1` mip levels has exactly `N` copy descriptors in mip order, with
`mipLevel` equal to the index; descriptor 0's `destRect` equals the caller's
`dstRect`, and each subsequent descriptor's `destRect` halves the previous
level's dimensions rounding down (C++ integer division, minimum 1 per axis),
anchored at `dstRect`'s top-left. -/
theorem C2_amended_copy_descriptors (env : MakeEnv) (tp : TextureProxy)
    (src dst : SkColorInfo) (levels : List MipLevel) (rect : SkIRect)
    (cc : Option ConditionalUploadContext) (hne : levels ≠ [])
    (hv : ((UploadInstance.Make env tp src dst levels rect cc).1).isValid = true) :
    ((UploadInstance.Make env tp src dst levels rect cc).1).fCopyData.map
        (fun cd => (cd.fMipLevel, cd.fRect)) =
      (List.range levels.length).map (fun t => (t, mipRect rect t)) ∧
    ((UploadInstance.Make env tp src dst levels rect cc).1).fCopyData.head?.map
        (fun cd => cd.fRect) = some rect := by
  obtain ⟨hre, buffer, hbuf, hmk⟩ := Make_of_valid env tp src dst levels rect cc hv
  have hn : 1 ≤ levels.length := List.length_pos.mpr hne
  have hP := compute_combined_buffer_size_spec env.caps (makeBpp env.caps tp src dst)
      rect.size SkTextureCompressionType.kNone levels.length hn
  have hPlen : (makePlanner env.caps tp src dst levels rect).levelOffsetsAndRowBytes.length
      = levels.length := by
    rw [makePlanner, hP]
    simp
  have hzip : (levels.zip
      (makePlanner env.caps tp src dst levels rect).levelOffsetsAndRowBytes).length
      = levels.length := by
    rw [List.length_zip, hPlen]
    omega
  rw [hmk]
  constructor
  · refine List.ext_getElem? fun t => ?_
    rw [List.getElem?_map, List.getElem?_map,
      uploadLevelLoop_fst_getElem (makeBpp env.caps tp src dst) _ _ rect _ _ 0
        rect.width rect.height t,
      Option.map_map]
    by_cases ht : t < levels.length
    · have htz : t < (levels.zip
          (makePlanner env.caps tp src dst levels rect).levelOffsetsAndRowBytes).length := by
        omega
      rw [List.getElem?_eq_getElem htz, List.getElem?_range ht]
      simp only [Option.map_some', Function.comp]
      refine congrArg _ ?_
      refine congrArg₂ _ (by omega) rfl
    · have h1 : (levels.zip
          (makePlanner env.caps tp src dst levels rect).levelOffsetsAndRowBytes).length ≤ t := by
        omega
      have h2 : (List.range levels.length).length ≤ t := by simp; omega
      rw [List.getElem?_eq_none h1, List.getElem?_eq_none h2]
      rfl
  · rw [List.head?_eq_getElem?,
      uploadLevelLoop_fst_getElem (makeBpp env.caps tp src dst) _ _ rect _ _ 0
        rect.width rect.height 0]
    have h0 : 0 < (levels.zip
        (makePlanner env.caps tp src dst levels rect).levelOffsetsAndRowBytes).length := by
      omega
    rw [List.getElem?_eq_getElem h0]
    simp only [Option.map_some']
    refine congrArg _ ?_
    show (⟨rect.left, rect.top, rect.left + (mipDims ⟨rect.width, rect.height⟩ 0).width,
        rect.top + (mipDims ⟨rect.width, rect.height⟩ 0).height⟩ : SkIRect) = rect
    exact rect_rebuild rect

/-- Claim C2 witness: the amended theorem at a concrete valid 3-level 5×5
upload; the recorded (mipLevel, destRect) pairs are
`(0, 5×5), (1, 2×2), (2, 1×1)` anchored at the origin. -/
theorem C2_witness :
    ((UploadInstance.Make envStd proxyFive ciRGBA ciRGBA [lvlStd, lvlStd, lvlStd]
        ⟨0, 0, 5, 5⟩ none).1).fCopyData.map (fun cd => (cd.fMipLevel, cd.fRect)) =
      (List.range ([lvlStd, lvlStd, lvlStd] : List MipLevel).length).map
        (fun t => (t, mipRect ⟨0, 0, 5, 5⟩ t)) ∧
    ((UploadInstance.Make envStd proxyFive ciRGBA ciRGBA [lvlStd, lvlStd, lvlStd]
        ⟨0, 0, 5, 5⟩ none).1).fCopyData.head?.map (fun cd => cd.fRect) =
      some ⟨0, 0, 5, 5⟩ :=
  C2_amended_copy_descriptors envStd proxyFive ciRGBA ciRGBA [lvlStd, lvlStd, lvlStd]
    ⟨0, 0, 5, 5⟩ none (by decide) (by decide)

/-! ## Claim C6 -/

/-- Claim C6: the uncompressed `Make` returns the no-op sentinel (and makes
no staging writes, hence never raises) when the destination rect is empty, a
single-level upload has a null pixel pointer, any level of the chain has a
null pixel pointer, the device reports no compatible writable color type
(`kUnknown`), or the staging pool cannot satisfy the reservation. -/
theorem C6_make_noop_sentinel (env : MakeEnv) (tp : TextureProxy) (src dst : SkColorInfo)
    (levels : List MipLevel) (rect : SkIRect) (cc : Option ConditionalUploadContext)
    (h : rect.isEmpty = true
      ∨ (levels.length = 1 ∧ levels.headI.fPixels = none)
      ∨ (∃ l ∈ levels, l.fPixels = none)
      ∨ (env.caps.supportedWritePixelsColorType dst.colorType tp.textureInfo
          src.colorType).1 = SkColorType.kUnknown
      ∨ (∀ size align, (env.getTextureUploadWriter size align).fBuffer = none)) :
    UploadInstance.Make env tp src dst levels rect cc = (noOpInstance, []) := by
  by_cases h1 : rect.isEmpty
  · simp only [UploadInstance.Make]
    rw [if_pos h1]
  by_cases h2 : (levels.length == 1 && levels.headI.fPixels.isNone) = true
  · simp only [UploadInstance.Make]
    rw [if_neg h1, if_pos h2]
  by_cases h3 : (levels.any fun l => l.fPixels.isNone) = true
  · simp only [UploadInstance.Make]
    rw [if_neg h1, if_neg h2, if_pos h3]
  by_cases h4 : ((env.caps.supportedWritePixelsColorType dst.colorType tp.textureInfo
      src.colorType).1 == SkColorType.kUnknown) = true
  · simp only [UploadInstance.Make]
    rw [if_neg h1, if_neg h2, if_neg h3, if_pos h4]
  have hmain := Make_eq_main env tp src dst levels rect cc h1 h2 h3 h4
  rcases h with h | h | h | h | h5
  · exact absurd h h1
  · exact absurd (by simp [h.1, h.2]) h2
  · rcases h with ⟨l, hl, hnone⟩
    exact absurd (by rw [List.any_eq_true]; exact ⟨l, hl, by simp [hnone]⟩) h3
  · exact absurd (by rw [h]; rfl) h4
  · rw [hmain, h5]

/-- Claim C6 witness: the theorem applied to a concrete call with an empty
destination rect. -/
theorem C6_witness :
    UploadInstance.Make envStd proxyFive ciRGBA ciRGBA [lvlStd] ⟨3, 3, 3, 9⟩ none
      = (noOpInstance, []) :=
  C6_make_noop_sentinel envStd proxyFive ciRGBA ciRGBA [lvlStd] ⟨3, 3, 3, 9⟩ none
    (Or.inl (by decide))

/-! ## Claim C8 -/

/-- A caps fixture whose supported-write-color-type resolution flags the
degraded 3-byte RGB packed format. -/
def capsRGB : Caps :=
  { capsRowIdFour with supportedWritePixelsColorType := fun _ _ _ => (.kRGB_888x, true) }

/-- An environment over `capsRGB` with an always-succeeding staging pool. -/
def envRGB : MakeEnv :=
  { caps := capsRGB, getTextureUploadWriter := fun _ _ => ⟨some 3, 0⟩ }

/-- An RGB-888x color description. -/
def ciRGBx : SkColorInfo := ⟨.kRGB_888x, 1, 1⟩

/-- A 4×4 destination proxy, already instantiated as texture 7. -/
def proxyFour : TextureProxy :=
  { dimensions := ⟨4, 4⟩, textureInfo := texInfoMip, texture := some 7 }

/-- Claim C8: a valid instance from the uncompressed `Make` has
`bytesPerPixel = 3` when the device flags the degraded RGB format, and in
that case every staging write (one per level) uses the degraded-RGB pack
path; otherwise `bytesPerPixel` is the per-pixel size of the resolved color
type. -/
theorem C8_degraded_rgb_bpp (env : MakeEnv) (tp : TextureProxy) (src dst : SkColorInfo)
    (levels : List MipLevel) (rect : SkIRect) (cc : Option ConditionalUploadContext)
    (hne : levels ≠ [])
    (hv : ((UploadInstance.Make env tp src dst levels rect cc).1).isValid = true) :
    ((UploadInstance.Make env tp src dst levels rect cc).1).fBytesPerPixel =
      (if (env.caps.supportedWritePixelsColorType dst.colorType tp.textureInfo
          src.colorType).2 then 3
       else SkColorTypeBytesPerPixel (env.caps.supportedWritePixelsColorType dst.colorType
          tp.textureInfo src.colorType).1) ∧
    ((env.caps.supportedWritePixelsColorType dst.colorType tp.textureInfo
        src.colorType).2 = true →
      ((UploadInstance.Make env tp src dst levels rect cc).2).all WriteEvent.isRGBPack = true ∧
      ((UploadInstance.Make env tp src dst levels rect cc).2).length = levels.length) := by
  obtain ⟨hre, buffer, hbuf, hmk⟩ := Make_of_valid env tp src dst levels rect cc hv
  have hn : 1 ≤ levels.length := List.length_pos.mpr hne
  have hP := compute_combined_buffer_size_spec env.caps (makeBpp env.caps tp src dst)
      rect.size SkTextureCompressionType.kNone levels.length hn
  have hPlen : (makePlanner env.caps tp src dst levels rect).levelOffsetsAndRowBytes.length
      = levels.length := by
    rw [makePlanner, hP]
    simp
  rw [hmk]
  refine ⟨rfl, fun hrgb => ⟨?_, ?_⟩⟩
  · rw [hrgb]
    exact uploadLevelLoop_snd_rgb _ _ rect _ _ 0 rect.width rect.height
  · rw [uploadLevelLoop_snd_length, List.length_zip, hPlen]
    omega

/-- Claim C8 witness: the theorem at a concrete single-level upload against a
device that flags the degraded RGB format; `bytesPerPixel = 3` and the single
write is a degraded-RGB pack. -/
theorem C8_witness :
    ((UploadInstance.Make envRGB proxyFour ciRGBx ciRGBx [lvlStd] ⟨0, 0, 4, 4⟩
        none).1).fBytesPerPixel = 3 ∧
    (((UploadInstance.Make envRGB proxyFour ciRGBx ciRGBx [lvlStd] ⟨0, 0, 4, 4⟩
        none).2).all WriteEvent.isRGBPack = true ∧
     ((UploadInstance.Make envRGB proxyFour ciRGBx ciRGBx [lvlStd] ⟨0, 0, 4, 4⟩
        none).2).length = 1) :=
  ⟨(C8_degraded_rgb_bpp envRGB proxyFour ciRGBx ciRGBx [lvlStd] ⟨0, 0, 4, 4⟩ none
      (by decide) (by decide)).1,
   (C8_degraded_rgb_bpp envRGB proxyFour ciRGBx ciRGBx [lvlStd] ⟨0, 0, 4, 4⟩ none
      (by decide) (by decide)).2 (by decide)⟩

/-! ## Claim C9 -/

/-- Claim C9: `recordUpload` returns false and leaves the accumulated
instance list unchanged when the planned instance is invalid, and returns
true appending exactly that instance at the end when it is valid. -/
theorem C9_record_upload (fInstances : List UploadInstance) (env : MakeEnv)
    (tp : TextureProxy) (src dst : SkColorInfo) (levels : List MipLevel) (rect : SkIRect)
    (cc : Option ConditionalUploadContext) :
    (((UploadInstance.Make env tp src dst levels rect cc).1).isValid = false →
      UploadList.recordUpload fInstances env tp src dst levels rect cc
        = (false, fInstances)) ∧
    (((UploadInstance.Make env tp src dst levels rect cc).1).isValid = true →
      UploadList.recordUpload fInstances env tp src dst levels rect cc
        = (true, fInstances ++ [(UploadInstance.Make env tp src dst levels rect cc).1])) := by
  constructor <;> intro h <;> simp [UploadList.recordUpload, h]

/-- Claim C9 witness: the theorem's valid case at a concrete recorded upload:
the list grows by exactly the planned instance. -/
theorem C9_witness :
    UploadList.recordUpload [] envStd proxyFive ciRGBA ciRGBA [lvlStd, lvlStd, lvlStd]
        ⟨0, 0, 5, 5⟩ none
      = (true, [] ++ [(UploadInstance.Make envStd proxyFive ciRGBA ciRGBA
          [lvlStd, lvlStd, lvlStd] ⟨0, 0, 5, 5⟩ none).1]) :=
  (C9_record_upload [] envStd proxyFive ciRGBA ciRGBA [lvlStd, lvlStd, lvlStd]
    ⟨0, 0, 5, 5⟩ none).2 (by decide)

/-! ## Claim C3 -/

/-- Claim C3: in the replay-target branch of `addCommand` (target equals the
instance's instantiated texture, single copy descriptor, no conditional skip),
the descriptor's rect is translated by the replay translation and intersected
with the destination bounds; an empty intersection emits nothing, otherwise
exactly one copy command is emitted whose rect is the intersection and whose
buffer offset grows by `(croppedTop - translatedTop) * rowBytes +
(croppedLeft - translatedLeft) * bytesPerPixel`. -/
theorem C3_replay_crop (inst : UploadInstance) (proxy : TextureProxy) (tex : Texture)
    (cd : BufferTextureCopyData) (context : Nat) (rd : ReplayTargetData)
    (hp : inst.fTextureProxy = some proxy)
    (htx : proxy.texture = some tex)
    (htgt : rd.fTarget = some tex)
    (hcd : inst.fCopyData = [cd])
    (hcc : ∀ cc, inst.fConditionalContext = some cc → cc.needsUpload context = true) :
    ((cd.fRect.offsetBy rd.fTranslation.1 rd.fTranslation.2).intersect
        (SkIRect.MakeSize proxy.dimensions) = none →
      (inst.addCommand context rd).commands = []) ∧
    (∀ cropped, (cd.fRect.offsetBy rd.fTranslation.1 rd.fTranslation.2).intersect
        (SkIRect.MakeSize proxy.dimensions) = some cropped →
      (inst.addCommand context rd).commands =
        [⟨inst.fBuffer, tex,
          [{ cd with
             fBufferOffset := cd.fBufferOffset
               + (cropped.top
                   - (cd.fRect.offsetBy rd.fTranslation.1 rd.fTranslation.2).top).toNat
                 * cd.fBufferRowBytes
               + (cropped.left
                   - (cd.fRect.offsetBy rd.fTranslation.1 rd.fTranslation.2).left).toNat
                 * inst.fBytesPerPixel
             fRect := cropped }]⟩]) := by
  have hskip : (inst.fConditionalContext.elim false fun cc => !cc.needsUpload context)
      = false := by
    rcases hc : inst.fConditionalContext with _ | cc
    · rfl
    · simp [hcc cc hc]
  constructor
  · intro hint
    simp [UploadInstance.addCommand, hp, htx, htgt, hcd, hskip, hint]
  · intro cropped hint
    simp [UploadInstance.addCommand, hp, htx, htgt, hcd, hskip, hint]

/-- The concrete instance of the spec's Scenario 4: a single-level upload of
`destRect = [2,2,6,6]` staged at buffer offset 100 with row bytes 32 and
4 bytes per pixel, destined for the 8×7 texture 7. -/
def instS4 : UploadInstance :=
  { fBuffer := some 3
    fBytesPerPixel := 4
    fTextureProxy := some proxyEightSeven
    fCopyData := [⟨100, 32, ⟨2, 2, 6, 6⟩, 0⟩]
    fConditionalContext := none }

/-- Claim C3 witness: Scenario 4 — replay onto the destination itself with
translation (+1,+1) against the 8×7 bounds crops to `[3,3,7,7]` and emits one
command whose offset grew by `(3-3)*32 + (3-3)*4 = 0`. -/
theorem C3_witness :
    (instS4.addCommand 0 ⟨some 7, (1, 1)⟩).commands =
      [⟨some 3, 7, [⟨100, 32, ⟨3, 3, 7, 7⟩, 0⟩]⟩] := by
  have h := (C3_replay_crop instS4 proxyEightSeven 7 ⟨100, 32, ⟨2, 2, 6, 6⟩, 0⟩ 0
      ⟨some 7, (1, 1)⟩ rfl rfl rfl rfl (fun cc hc => by simp [instS4] at hc)).2
      ⟨3, 3, 7, 7⟩ (by decide)
  simpa using h

/-! ## Claim C4 -/

/-- Claim C4: for an instance with a conditional context attached, the
submitted notification fires iff a copy command was actually emitted; in
particular a negative "still needed" answer emits nothing and notifies
nothing. -/
theorem C4_conditional_notification (inst : UploadInstance) (cc : ConditionalUploadContext)
    (context : Nat) (rd : ReplayTargetData)
    (hcc : inst.fConditionalContext = some cc) :
    ((inst.addCommand context rd).notifiedSubmitted = true ↔
      (inst.addCommand context rd).commands ≠ []) ∧
    (cc.needsUpload context = false →
      (inst.addCommand context rd).commands = [] ∧
      (inst.addCommand context rd).notifiedSubmitted = false) := by
  rcases hp : inst.fTextureProxy with _ | proxy
  · simp [UploadInstance.addCommand, hp]
  rcases htx : proxy.texture with _ | tex
  · simp [UploadInstance.addCommand, hp, htx]
  by_cases hneed : cc.needsUpload context = true
  · by_cases htgt : some tex ≠ rd.fTarget
    · simp [UploadInstance.addCommand, hp, htx, hcc, hneed, htgt]
    · rcases hcd : inst.fCopyData with _ | ⟨cd, rest⟩
      · simp [UploadInstance.addCommand, hp, htx, hcc, hneed, htgt, hcd]
      · rcases hint : (cd.fRect.offsetBy rd.fTranslation.1 rd.fTranslation.2).intersect
            (SkIRect.MakeSize proxy.dimensions) with _ | cropped
        · simp [UploadInstance.addCommand, hp, htx, hcc, hneed, htgt, hcd, hint]
        · simp [UploadInstance.addCommand, hp, htx, hcc, hneed, htgt, hcd, hint]
  · simp [UploadInstance.addCommand, hp, htx, hcc, hneed]

/-- An always-"still needed" conditional context. -/
def ccTrue : ConditionalUploadContext := ⟨fun _ => true⟩

/-- A single-level conditional instance used to witness claim C4. -/
def instC4 : UploadInstance :=
  { fBuffer := some 3
    fBytesPerPixel := 4
    fTextureProxy := some proxyFive
    fCopyData := [⟨0, 32, ⟨0, 0, 5, 5⟩, 0⟩]
    fConditionalContext := some ccTrue }

/-- Claim C4 witness: the theorem's notification-iff-emission part at a
concrete conditional instance recorded directly (no replay target). -/
theorem C4_witness :
    (instC4.addCommand 0 ⟨none, (0, 0)⟩).notifiedSubmitted = true ↔
      (instC4.addCommand 0 ⟨none, (0, 0)⟩).commands ≠ [] :=
  (C4_conditional_notification instC4 ccTrue 0 ⟨none, (0, 0)⟩ rfl).1

/-! ## Claim C10 -/

lemma addCommand_no_conditional (inst : UploadInstance) (context : Nat)
    (rd : ReplayTargetData) (h : inst.fConditionalContext = none) :
    (inst.addCommand context rd).queriedNeedsUpload = false ∧
    (inst.addCommand context rd).notifiedSubmitted = false := by
  rcases hp : inst.fTextureProxy with _ | proxy
  · simp [UploadInstance.addCommand, hp]
  rcases htx : proxy.texture with _ | tex
  · simp [UploadInstance.addCommand, hp, htx]
  by_cases htgt : some tex ≠ rd.fTarget
  · simp [UploadInstance.addCommand, hp, htx, h, htgt]
  · rcases hcd : inst.fCopyData with _ | ⟨cd, rest⟩
    · simp [UploadInstance.addCommand, hp, htx, h, htgt, hcd]
    · rcases hint : (cd.fRect.offsetBy rd.fTranslation.1 rd.fTranslation.2).intersect
          (SkIRect.MakeSize proxy.dimensions) with _ | cropped
      · simp [UploadInstance.addCommand, hp, htx, h, htgt, hcd, hint]
      · simp [UploadInstance.addCommand, hp, htx, h, htgt, hcd, hint]

lemma MakeCompressed_condContext_none (env : MakeEnv) (tp : TextureProxy)
    (data : Option Nat) (dataSize : Nat) :
    ((UploadInstance.MakeCompressed env tp data dataSize).1).fConditionalContext = none := by
  rcases data with _ | d
  · rfl
  · simp only [UploadInstance.MakeCompressed]
    by_cases hcp : (tp.textureInfo.compressionType == SkTextureCompressionType.kNone) = true
    · rw [if_pos hcp]
      rfl
    · rw [if_neg hcp]
      split
      · rfl
      · rfl

/-- Claim C10: every instance produced by `MakeCompressed` carries no
conditional-upload context; consequently `addCommand` on such an instance
never runs the "still needed" query and never issues the submitted
notification. -/
theorem C10_compressed_unconditional (env : MakeEnv) (tp : TextureProxy)
    (data : Option Nat) (dataSize : Nat) (context : Nat) (rd : ReplayTargetData) :
    ((UploadInstance.MakeCompressed env tp data dataSize).1).fConditionalContext = none ∧
    (((UploadInstance.MakeCompressed env tp data dataSize).1).addCommand context
        rd).queriedNeedsUpload = false ∧
    (((UploadInstance.MakeCompressed env tp data dataSize).1).addCommand context
        rd).notifiedSubmitted = false := by
  have hnone := MakeCompressed_condContext_none env tp data dataSize
  have hcmd := addCommand_no_conditional
      ((UploadInstance.MakeCompressed env tp data dataSize).1) context rd hnone
  exact ⟨hnone, hcmd.1, hcmd.2⟩

/-! ## Claim C7 -/

/-- Claim C7: `UploadTask::prepareResources` returns true iff every
instance's texture proxy is non-null and instantiable, and it processes
instances in order, stopping at the first failing instance (the processed
trace is the passing prefix plus at most one failing instance). -/
theorem C7_prepare_fail_fast (rp : ResourceProvider) (insts : List UploadInstance) :
    ((UploadTask.prepareResources rp insts).1 = true ↔
      ∀ inst ∈ insts, ∃ p, inst.fTextureProxy = some p ∧
        TextureProxy.InstantiateIfNotLazy rp p = true) ∧
    (UploadTask.prepareResources rp insts).2 =
      insts.takeWhile (fun i => i.prepareResources rp) ++
        (insts.dropWhile (fun i => i.prepareResources rp)).take 1 := by
  have hready : ∀ inst : UploadInstance, inst.prepareResources rp = true ↔
      ∃ p, inst.fTextureProxy = some p ∧ TextureProxy.InstantiateIfNotLazy rp p = true := by
    intro inst
    rcases hp : inst.fTextureProxy with _ | p <;>
      simp [UploadInstance.prepareResources, hp]
  induction insts with
  | nil => simp [UploadTask.prepareResources]
  | cons i rest ih =>
    by_cases hi : i.prepareResources rp = true
    · have h2 := ih
      constructor
      · rw [show (UploadTask.prepareResources rp (i :: rest)).1
            = (UploadTask.prepareResources rp rest).1 by
              simp [UploadTask.prepareResources, hi]]
        rw [h2.1]
        constructor
        · intro hall
          intro inst hmem
          rcases List.mem_cons.mp hmem with rfl | hmem
          · exact (hready inst).mp hi
          · exact hall inst hmem
        · intro hall inst hmem
          exact hall inst (List.mem_cons_of_mem i hmem)
      · rw [show (UploadTask.prepareResources rp (i :: rest)).2
            = i :: (UploadTask.prepareResources rp rest).2 by
              simp [UploadTask.prepareResources, hi]]
        rw [h2.2]
        simp [List.takeWhile_cons, List.dropWhile_cons, hi]
    · constructor
      · rw [show (UploadTask.prepareResources rp (i :: rest)).1 = false by
              simp [UploadTask.prepareResources, hi]]
        simp only [Bool.false_eq_true, false_iff]
        intro hall
        exact hi ((hready i).mpr (hall i (List.mem_cons_self i rest)))
      · rw [show (UploadTask.prepareResources rp (i :: rest)).2 = [i] by
              simp [UploadTask.prepareResources, hi]]
        simp [List.takeWhile_cons, List.dropWhile_cons, hi]

end Skia
